import Mathlib

/-!
Shallow embedding of the `dual-backend` subscription service (rust-version):
configuration resolution, secret handling, the telemetry filter, the
subscription request pipeline and the startup routine, translated from the
Rust sources in `src/rust-version`.
-/

namespace Zero2Prod

/-- Model of the secrecy crate `Secret` wrapper used by `configuration.rs`:
the raw value sits in a single field and is obtainable only through
`exposeSecret`. -/
structure Secret (α : Type) where
  value : α
deriving DecidableEq

def Secret.new {α : Type} (a : α) : Secret α := ⟨a⟩

def Secret.exposeSecret {α : Type} (s : Secret α) : α := s.value

/-- Debug rendering of a `Secret String` as implemented by the secrecy crate:
a constant redacted placeholder, independent of the wrapped value. -/
def Secret.debugFmt (_s : Secret String) : String :=
  "Secret([REDACTED alloc::string::String])"

/-- Model of Rust `str::to_lowercase` (character-wise lowercasing; the inputs
of this program are ASCII). -/
def strToLower (s : String) : String :=
  String.mk (s.data.map Char.toLower)

/-- Split a character list on a separator character; mirrors Rust
`str::split` with a one-character pattern. -/
def splitOnChar (sep : Char) : List Char → List (List Char)
  | [] => [[]]
  | c :: rest =>
      let r := splitOnChar sep rest
      if c = sep then [] :: r
      else
        match r with
        | [] => [[c]]
        | g :: gs => (c :: g) :: gs

/-- Split a character list at the first occurrence of a separator, returning
the part before it and, when the separator occurs, the part after it. -/
def splitFirst (sep : Char) : List Char → List Char × Option (List Char)
  | [] => ([], none)
  | c :: rest =>
      if c = sep then ([], some rest)
      else
        let (k, v) := splitFirst sep rest
        (c :: k, v)

/-- `Environment` from `configuration.rs`. -/
inductive Environment where
  | Local
  | Production
deriving DecidableEq

/-- `Environment::as_str` from `configuration.rs`. -/
def Environment.asStr : Environment → String
  | .Local => "local"
  | .Production => "production"

/-- `TryFrom<String> for Environment` from `configuration.rs`: lowercase the
input, accept exactly "local" and "production", and report any other
(lowercased) value in the error message. -/
def Environment.tryFrom (s : String) : Except String Environment :=
  let lower := strToLower s
  if lower = "local" then .ok .Local
  else if lower = "production" then .ok .Production
  else .error (lower ++ " is not a supported env.\nUse either `local` or `production`")

/-- The `APP_ENVIRONMENT` handling inside `get_configuration`:
`std::env::var("APP_ENVIRONMENT").unwrap_or_else(|_| "local".into()).try_into()`.
`none` models an unset variable (the only case `unwrap_or_else` replaces:
a set-but-empty variable is `Ok("")` in Rust and goes through the parser);
the `.expect` panic on a parse failure is modelled by the error branch. -/
def resolveAppEnvironment (appEnv : Option String) : Except String Environment :=
  Environment.tryFrom (appEnv.getD "local")

/-- `Ipv4Addr` (std), the declared type of `ServerSettings.host`. -/
structure Ipv4Addr where
  a : Nat
  b : Nat
  c : Nat
  d : Nat
deriving DecidableEq

/-- `Display` of `Ipv4Addr`: dotted decimal. -/
def Ipv4Addr.render (ip : Ipv4Addr) : String :=
  toString ip.a ++ "." ++ toString ip.b ++ "." ++ toString ip.c ++ "." ++ toString ip.d

/-- One octet of the std `Ipv4Addr` string parser: 1-3 decimal digits, no
leading zero, value at most 255. -/
def parseOctet (s : List Char) : Option Nat :=
  if s.length = 0 ∨ 3 < s.length then none
  else if ¬ s.all Char.isDigit then none
  else if 1 < s.length ∧ s.headD ' ' = '0' then none
  else
    let n := s.foldl (fun acc c => acc * 10 + (c.toNat - '0'.toNat)) 0
    if n ≤ 255 then some n else none

/-- The std `FromStr`/`Deserialize` parser for `Ipv4Addr`, through which
serde fills `ServerSettings.host` from the configuration file: exactly four
dot-separated octets. -/
def Ipv4Addr.parse (s : String) : Option Ipv4Addr :=
  match splitOnChar '.' s.data with
  | [x, y, z, w] => do
      let a ← parseOctet x
      let b ← parseOctet y
      let c ← parseOctet z
      let d ← parseOctet w
      pure ⟨a, b, c, d⟩
  | _ => none

/-- `ServerSettings` from `configuration.rs` (`host : Ipv4Addr`,
`port : u16`; the port is modelled as a `Nat`, in the program always below
2^16). -/
structure ServerSettings where
  host : Ipv4Addr
  port : Nat
deriving DecidableEq

/-- `ServerSettings::tcp_socket_address`: `format!("{}:{}", host, port)`. -/
def ServerSettings.tcp_socket_address (s : ServerSettings) : String :=
  s.host.render ++ ":" ++ toString s.port

/-- `ServerSettings::with_random_port`: `let random_port = 0;
format!("{}:{}", host, random_port)`. -/
def ServerSettings.with_random_port (s : ServerSettings) : String :=
  s.host.render ++ ":" ++ toString 0

/-- `DBUser` from `configuration.rs`. -/
structure DBUser where
  name : String
  password : Secret String
deriving DecidableEq

/-- `DatabaseSettings` from `configuration.rs`. -/
structure DatabaseSettings where
  name : String
  host : String
  port : Nat
  user : DBUser
deriving DecidableEq

/-- `DatabaseSettings::connection_string`:
`Secret::new(format!("postgres://{}:{}@{}:{}/{}", user.name,
user.password.expose_secret(), host, port, name))`. -/
def DatabaseSettings.connection_string (s : DatabaseSettings) : Secret String :=
  Secret.new ("postgres://" ++ s.user.name ++ ":" ++ s.user.password.exposeSecret
    ++ "@" ++ s.host ++ ":" ++ toString s.port ++ "/" ++ s.name)

/-- `Settings` from `configuration.rs`. -/
structure Settings where
  database : DatabaseSettings
  server : ServerSettings
deriving DecidableEq

/-- Replace the database password of a `Settings` value (used to state
noninterference of the rendered output in the password). -/
def setPassword (s : Settings) (p : String) : Settings :=
  { s with database :=
    { s.database with user :=
      { s.database.user with password := Secret.new p } } }

/-- `FormData` from `routes/subscriptions.rs`. -/
structure FormData where
  email : String
  name : String
deriving DecidableEq

/-- Value of a single hexadecimal digit. -/
def hexVal? (c : Char) : Option Nat :=
  if '0' ≤ c ∧ c ≤ '9' then some (c.toNat - '0'.toNat)
  else if 'a' ≤ c ∧ c ≤ 'f' then some (c.toNat - 'a'.toNat + 10)
  else if 'A' ≤ c ∧ c ≤ 'F' then some (c.toNat - 'A'.toNat + 10)
  else none

/-- Percent-decoding of a form-urlencoded token as done by the url crate:
`+` becomes a space, `%hh` becomes the byte `hh`, and an invalid escape is
kept literally. -/
def percentDecodeChars : List Char → List Char
  | [] => []
  | '+' :: rest => ' ' :: percentDecodeChars rest
  | '%' :: c₁ :: c₂ :: rest =>
      match hexVal? c₁, hexVal? c₂ with
      | some hi, some lo => Char.ofNat (16 * hi + lo) :: percentDecodeChars rest
      | _, _ => '%' :: percentDecodeChars (c₁ :: c₂ :: rest)
  | c :: rest => c :: percentDecodeChars rest

def percentDecode (cs : List Char) : String :=
  String.mk (percentDecodeChars cs)

/-- One `key=value` pair of a form-urlencoded body: split at the first `=`
(a pair without `=` has the empty value), percent-decode both sides. -/
def parsePair (seg : List Char) : String × String :=
  match splitFirst '=' seg with
  | (k, none) => (percentDecode k, "")
  | (k, some v) => (percentDecode k, percentDecode v)

/-- Modelled from the spec: form-urlencoded body parsing as performed by the
serde_urlencoded / url machinery behind `web::Form` (the parser itself is
external library code): split on `&`, drop empty segments, split each
segment at the first `=`, percent-decode. -/
def parseUrlencodedBody (body : String) : List (String × String) :=
  ((splitOnChar '&' body.data).filter (fun seg => seg ≠ [])).map parsePair

/-- First value bound to a key in a pair list. -/
def lookupField : List (String × String) → String → Option String
  | [], _ => none
  | (k, v) :: rest, key => if k = key then some v else lookupField rest key

/-- Modelled from the spec: extraction of `FormData` from a request body as
performed by `web::Form<FormData>` (external framework code; spec 4.4 and
the comments in `routes/subscriptions.rs` describe it): deserialization
succeeds exactly when both required fields `email` and `name` are present. -/
def extractFormData (body : String) : Option FormData :=
  let pairs := parseUrlencodedBody body
  match lookupField pairs "email", lookupField pairs "name" with
  | some e, some n => some ⟨e, n⟩
  | _, _ => none

/-- A row of the `subscriptions` table. -/
structure SubscriberRow where
  id : String
  email : String
  name : String
  subscribed_at : Nat
deriving DecidableEq

/-- The persisted store: the rows of the `subscriptions` table. -/
abbrev Store := List SubscriberRow

/-- The SQL text of the one query of `insert_subscriber` (whitespace of the
raw literal normalized to one line). -/
def subscriptionsInsertSql : String :=
  "INSERT INTO subscriptions(id, email, name, subscribed_at) VALUES ($1, $2, $3, $4)"

/-- A parameterized insert as issued by `sqlx::query!`: the SQL text plus the
four bound parameters (never concatenated into the text). -/
structure SqlInsert where
  sql : String
  id : String
  email : String
  name : String
  subscribed_at : Nat
deriving DecidableEq

/-- A structured log event (severity level and message). -/
structure LogEvent where
  level : String
  message : String
deriving DecidableEq

/-- The message of `tracing::error!("Failed to execute query: {:?}", e)` in
`insert_subscriber`, with the Debug rendering of the sqlx error modelled by
the error string itself. -/
def logFailedQuery (e : String) : String :=
  "Failed to execute query: " ++ e

/-- Result of one `insert_subscriber` call: the returned value, the queries
sent to the database, and the log events emitted. -/
structure GatewayOutcome where
  result : Except String Unit
  queries : List SqlInsert
  logs : List LogEvent

/-- `insert_subscriber` from `routes/subscriptions.rs`: build the one
parameterized insert (`Uuid::new_v4()` and `Utc::now()` are modelled by the
`freshId` and `now` arguments), execute it (the database outcome is the
`dbResult` argument), and on `Err(e)` log the error and return the same `e`
(`map_err` logs and yields `e` unchanged); on success return `Ok(())`. -/
def insert_subscriber (freshId : String) (now : Nat) (form : FormData)
    (dbResult : Except String Unit) : GatewayOutcome :=
  let q : SqlInsert := ⟨subscriptionsInsertSql, freshId, form.email, form.name, now⟩
  match dbResult with
  | .ok _ => ⟨.ok (), [q], []⟩
  | .error e => ⟨.error e, [q], [⟨"ERROR", logFailedQuery e⟩]⟩

/-- An HTTP response: status code and body. -/
structure HttpResponse where
  status : Nat
  body : String
deriving DecidableEq

/-- The `subscribe` handler body from `routes/subscriptions.rs`: match on
`insert_subscriber`, mapping `Ok` to `HttpResponse::Ok().finish()` (200,
empty body) and `Err` to `HttpResponse::InternalServerError().finish()`
(500, empty body). -/
def subscribe (freshId : String) (now : Nat) (form : FormData)
    (dbResult : Except String Unit) : HttpResponse × GatewayOutcome :=
  let g := insert_subscriber freshId now form dbResult
  match g.result with
  | .ok _ => (⟨200, ""⟩, g)
  | .error _ => (⟨500, ""⟩, g)

/-- Events observable while one POST /subscription request is handled. -/
inductive PipelineEvent where
  | handlerInvoked
  | gatewayInsert (q : SqlInsert)
deriving DecidableEq

/-- Modelled from the spec: the body of the 400 response actix-web produces
on extraction failure ("HTTP 400 with an empty or minimal body"). -/
def extractionErrorBody : String := ""

/-- Modelled from the spec: actix-web dispatch of POST /subscription (the
dispatcher is external framework code; spec 4.4 and the comments in
`routes/subscriptions.rs` describe it). Extraction of `web::Form<FormData>`
is attempted first; on failure the framework answers 400 and the handler is
never invoked (no events, store untouched); on success the handler runs:
the gateway executes the one insert built by `insert_subscriber` against
the store and the handler maps the outcome to the response. -/
def postSubscription (store : Store)
    (gateway : Store → SqlInsert → Except String Unit × Store)
    (freshId : String) (now : Nat) (body : String) :
    HttpResponse × Store × List PipelineEvent :=
  match extractFormData body with
  | none => (⟨400, extractionErrorBody⟩, store, [])
  | some form =>
      let q : SqlInsert := ⟨subscriptionsInsertSql, freshId, form.email, form.name, now⟩
      let (r, newStore) := gateway store q
      ((subscribe freshId now form r).1, newStore, [.handlerInvoked, .gatewayInsert q])

/-- A gateway that always succeeds and appends the inserted row. -/
def exampleGateway : Store → SqlInsert → Except String Unit × Store :=
  fun st q => (.ok (), st ++ [⟨q.id, q.email, q.name, q.subscribed_at⟩])

/-- HTTP methods used by the routes of `startup.rs`. -/
inductive HttpMethod where
  | GET
  | POST
deriving DecidableEq

/-- The handlers bound by `startup.rs`. -/
inductive Handler where
  | health_check
  | greet
  | subscribe
deriving DecidableEq

/-- An opaque handle to a `PgPool`. -/
structure PgPool where
  handle : Nat
deriving DecidableEq

/-- The actix `App` as configured by `startup.rs::run`: the bound routes and
the application state attached with `.app_data` (none is ever attached). -/
structure App where
  routes : List (HttpMethod × String × Handler)
  app_data : Option PgPool
deriving DecidableEq

/-- The actix `Server` value returned by `run`: bound to the listener and
not yet executing (`.run()` only builds the future). -/
structure Server where
  listener : Nat
  app : App
  started : Bool
deriving DecidableEq

/-- `run` from `startup.rs`. Its Rust signature is
`pub fn run(listener: TcpListener) -> Result<Server, std::io::Error>`: it
takes only the listener, binds the four routes, never calls `.app_data`
(so no pool is attached as application state) and returns the server
without starting it. -/
def run (listener : Nat) : Except String Server :=
  .ok { listener := listener,
        app := { routes := [(.GET, "/health_check", .health_check),
                            (.GET, "/greet", .greet),
                            (.GET, "/greet/{name}", .greet),
                            (.POST, "/subscription", .subscribe)],
                 app_data := none },
        started := false }

/-- A tracing `EnvFilter`, identified by its directive string. -/
structure EnvFilter where
  directives : String
deriving DecidableEq

def EnvFilter.new (s : String) : EnvFilter := ⟨s⟩

/-- The panic message of `std::env::var("RUST_LOG").expect(..)` in
`main.rs`. -/
def mainRustLogMissingMsg : String :=
  "RUST_LOG environment variable must be set (e.g., RUST_LOG=info)"

/-- `EnvFilter::try_from_default_env()`: read `RUST_LOG` and parse it with
the directive parser (abstracted as `parse`); fails when the variable is
unset or unparsable. -/
def try_from_default_env (parse : String → Option EnvFilter)
    (rustLog : Option String) : Option EnvFilter :=
  rustLog.bind parse

/-- The RUST_LOG handling of `main.rs`: first
`std::env::var("RUST_LOG").expect(..)` (fail fast when unset), then
`EnvFilter::try_from_default_env().unwrap_or_else(|_| EnvFilter::new("infos"))`. -/
def mainEnvFilter (parse : String → Option EnvFilter)
    (rustLog : Option String) : Except String EnvFilter :=
  match rustLog with
  | none => .error mainRustLogMissingMsg
  | some _ =>
      match try_from_default_env parse rustLog with
      | some f => .ok f
      | none => .ok (EnvFilter.new "infos")

/-- The filter construction of `telemetry.rs::get_subscriber`:
`EnvFilter::try_from_default_env().unwrap_or_else(|_| EnvFilter::new(env_filter))`,
where `env_filter` is the caller-supplied default directive string. -/
def get_subscriber_filter (parse : String → Option EnvFilter)
    (env_filter : String) (rustLog : Option String) : EnvFilter :=
  match try_from_default_env parse rustLog with
  | some f => f
  | none => EnvFilter.new env_filter

/-- Every string the program formats for print/debug/log/error output, other
than `connection_string` (the routes through which data can reach a sink in
the sources): the two bind-address strings and the redacted Debug form of
the password from `configuration.rs`, the overlay file name or the
APP_ENVIRONMENT failure messages from `get_configuration`, the span fields
of the `subscribe` instrument attribute and the query-failure log line from
`routes/subscriptions.rs`. -/
def programRenderedStrings (s : Settings) (appEnv : Option String)
    (dbErr reqId : String) (form : FormData) : List String :=
  [s.server.tcp_socket_address,
   s.server.with_random_port,
   Secret.debugFmt s.database.user.password]
  ++ (match resolveAppEnvironment appEnv with
      | .ok e => [e.asStr ++ ".yaml"]
      | .error m => ["Failed to parse APP_ENVIRONMENT", m])
  ++ ["request_id=" ++ reqId,
      "subscriber_email=" ++ form.email,
      "subscriber_name=" ++ form.name,
      logFailedQuery dbErr]

/- ------------------------------------------------------------------ -/
/- Theorems -/
/- ------------------------------------------------------------------ -/

/-- String concatenation is associative (helper). -/
theorem strAppendAssoc (a b c : String) : a ++ b ++ c = a ++ (b ++ c) := by
  cases a with | mk xs =>
  cases b with | mk ys =>
  cases c with | mk zs =>
  show String.mk (xs ++ ys ++ zs) = String.mk (xs ++ (ys ++ zs))
  rw [List.append_assoc]


/-- Claim C4 (counterexample): an APP_ENVIRONMENT that is set but empty does
not default to "local" as the claim states; it reaches the parser and is a
fatal error. -/
theorem app_environment_empty_value_errors :
    resolveAppEnvironment (some "") =
      .error " is not a supported env.\nUse either `local` or `production`" := rfl

/-- Claim C4 (amended): APP_ENVIRONMENT is parsed case-insensitively into
the Environment enum; an unset variable defaults to "local"; any set value
(the empty string included) whose lowercasing is neither "local" nor
"production" is a fatal configuration error whose message names the
(lowercased) invalid value and the two accepted values. -/
theorem app_environment_resolution :
    resolveAppEnvironment none = .ok .Local ∧
    (∀ v, strToLower v = "local" → resolveAppEnvironment (some v) = .ok .Local) ∧
    (∀ v, strToLower v = "production" → resolveAppEnvironment (some v) = .ok .Production) ∧
    (∀ v, strToLower v ≠ "local" → strToLower v ≠ "production" →
      resolveAppEnvironment (some v) =
        .error (strToLower v ++ " is not a supported env.\nUse either `local` or `production`")) := by
  refine ⟨rfl, ?_, ?_, ?_⟩
  · intro v h; simp [resolveAppEnvironment, Environment.tryFrom, h]
  · intro v h; simp [resolveAppEnvironment, Environment.tryFrom, h]
  · intro v h1 h2; simp [resolveAppEnvironment, Environment.tryFrom, h1, h2]

/-- Witness for the amended claim C4 at the concrete values "LOCAL" and
"staging". -/
theorem app_environment_resolution_witness :
    (strToLower "LOCAL" = "local" ∧ resolveAppEnvironment (some "LOCAL") = .ok .Local) ∧
    ((strToLower "staging" ≠ "local" ∧ strToLower "staging" ≠ "production") ∧
      resolveAppEnvironment (some "staging") =
        .error (strToLower "staging" ++ " is not a supported env.\nUse either `local` or `production`")) :=
  ⟨⟨by decide, app_environment_resolution.2.1 "LOCAL" (by decide)⟩,
   ⟨⟨by decide, by decide⟩,
     app_environment_resolution.2.2.2 "staging" (by decide) (by decide)⟩⟩

/-- Claim C8 (counterexample): `ServerSettings.host` is declared as
`Ipv4Addr`, so a hostname string such as "localhost" is rejected by the
deserializer; the claim says a hostname is accepted. -/
theorem server_host_rejects_hostname : Ipv4Addr.parse "localhost" = none := rfl

/-- Claim C8 (amended): `ServerSettings.host` is an IPv4 address only
(hostname strings are rejected); the derived bind address is exactly
"host:port", and the bind-to-any-available-port variant yields "host:0"
regardless of the configured port. -/
theorem server_settings_bind_address (h : Ipv4Addr) (p q : Nat) :
    ServerSettings.tcp_socket_address ⟨h, p⟩ = h.render ++ ":" ++ toString p ∧
    ServerSettings.with_random_port ⟨h, p⟩ = h.render ++ ":0" ∧
    ServerSettings.with_random_port ⟨h, p⟩ = ServerSettings.with_random_port ⟨h, q⟩ ∧
    Ipv4Addr.parse "127.0.0.1" = some ⟨127, 0, 0, 1⟩ := by
  refine ⟨rfl, ?_, rfl, by decide⟩
  rw [ServerSettings.with_random_port, strAppendAssoc]
  rfl

/-- Claim C9: converting an Environment to its string with as_str and
parsing it back returns the same value, and parsing a string succeeds
exactly when its lowercasing is "local" or "production". -/
theorem environment_roundtrip_and_case_insensitive :
    (∀ e : Environment, Environment.tryFrom e.asStr = .ok e) ∧
    (∀ s : String, (Environment.tryFrom s).isOk =
      (strToLower s == "local" || strToLower s == "production")) := by
  constructor
  · intro e; cases e <;> rfl
  · intro s
    by_cases h1 : strToLower s = "local"
    · simp [Environment.tryFrom, h1, Except.isOk, Except.toBool]
    · by_cases h2 : strToLower s = "production"
      · simp [Environment.tryFrom, h1, h2, Except.isOk, Except.toBool]
      · simp [Environment.tryFrom, h1, h2, Except.isOk, Except.toBool]

/-- Claim C10: `connection_string` returns exactly
"postgres://{user.name}:{password}@{host}:{port}/{name}" with the raw
secret password embedded in clear text inside the Secret-wrapped string. -/
theorem connection_string_format (d : DatabaseSettings) :
    d.connection_string.exposeSecret =
      "postgres://" ++ d.user.name ++ ":" ++ d.user.password.exposeSecret ++ "@" ++ d.host
        ++ ":" ++ toString d.port ++ "/" ++ d.name ∧
    ∃ pre post, d.connection_string.exposeSecret =
      pre ++ d.user.password.exposeSecret ++ post := by
  refine ⟨rfl, "postgres://" ++ d.user.name ++ ":",
    "@" ++ d.host ++ ":" ++ toString d.port ++ "/" ++ d.name, ?_⟩
  simp [DatabaseSettings.connection_string, Secret.new, Secret.exposeSecret, strAppendAssoc]


/-- Claim C1: whenever extraction of {email, name} from the form body fails
(in particular for a body missing email, missing name, or empty), the
response is 400, the store is unchanged (hence its row count), and no
pipeline event occurs: the handler never runs and the gateway is never
invoked. -/
theorem subscription_extraction_failure_short_circuits
    (store : Store) (gateway : Store → SqlInsert → Except String Unit × Store)
    (freshId : String) (now : Nat) (body : String)
    (h : extractFormData body = none) :
    postSubscription store gateway freshId now body = (⟨400, extractionErrorBody⟩, store, []) ∧
    extractFormData "name=le%20guin" = none ∧
    extractFormData "email=ursula_le_guin%40gmail.com" = none ∧
    extractFormData "" = none := by
  refine ⟨?_, by decide, by decide, rfl⟩
  simp [postSubscription, h]

/-- Witness for claim C1 at the concrete empty body. -/
theorem subscription_extraction_failure_short_circuits_witness :
    extractFormData "" = none ∧
    postSubscription [] exampleGateway "id-0" 0 "" = (⟨400, extractionErrorBody⟩, [], []) :=
  ⟨rfl, (subscription_extraction_failure_short_circuits [] exampleGateway "id-0" 0 "" rfl).1⟩

/-- Claim C2: on successful extraction the subscribe handler answers 200
with an empty body when the insert succeeds and 500 with an empty body when
it fails; the response for a failed insert is the same for every underlying
database error, so no part of it reaches the body. -/
theorem subscribe_response_mapping (freshId : String) (now : Nat) (form : FormData) :
    (subscribe freshId now form (.ok ())).1 = ⟨200, ""⟩ ∧
    (∀ e : String, (subscribe freshId now form (.error e)).1 = ⟨500, ""⟩) :=
  ⟨rfl, fun _ => rfl⟩

/-- Claim C3 (evaluation of the code): `startup.rs::run` takes only the
listener, binds the four routes and returns the server unstarted, but
attaches no application state: `app_data` is `none`, so no persistence pool
is made available to the handlers, although `main.rs` and the test harness
call `run(listener, pool)` and the `subscribe` handler extracts
`web::Data<PgPool>`. -/
theorem run_attaches_no_application_state (l : Nat) :
    run l = .ok
      ({ listener := l,
         app := { routes := [(.GET, "/health_check", .health_check),
                             (.GET, "/greet", .greet),
                             (.GET, "/greet/{name}", .greet),
                             (.POST, "/subscription", .subscribe)],
                  app_data := none },
         started := false } : Server) := rfl

/-- Claim C5: every print/debug/log/error string the program renders is
unchanged when the database password changes (the Debug form of the secret
is a redacted constant), and the raw password value reaches only the string
built by `connection_string` through `exposeSecret`. -/
theorem secret_password_never_rendered (s : Settings) (p₁ p₂ : String)
    (appEnv : Option String) (dbErr reqId : String) (form : FormData) :
    programRenderedStrings (setPassword s p₁) appEnv dbErr reqId form =
      programRenderedStrings (setPassword s p₂) appEnv dbErr reqId form ∧
    (∃ pre post, ((setPassword s p₁).database.connection_string).exposeSecret =
      pre ++ p₁ ++ post) := by
  refine ⟨rfl, "postgres://" ++ s.database.user.name ++ ":",
    "@" ++ s.database.host ++ ":" ++ toString s.database.port ++ "/" ++ s.database.name, ?_⟩
  simp [setPassword, DatabaseSettings.connection_string, Secret.new, Secret.exposeSecret,
    strAppendAssoc]

/-- Claim C6: `insert_subscriber` issues exactly one parameterized insert
of (id, email, name, subscribed_at) whatever the outcome (no retry); on
failure it logs the error at ERROR severity and returns the very same error
unmodified; on success it returns Ok with nothing logged. -/
theorem insert_subscriber_spec (freshId : String) (now : Nat) (form : FormData)
    (dbResult : Except String Unit) :
    (insert_subscriber freshId now form dbResult).queries =
      [⟨subscriptionsInsertSql, freshId, form.email, form.name, now⟩] ∧
    (∀ e, dbResult = .error e →
      (insert_subscriber freshId now form dbResult).result = .error e ∧
      (insert_subscriber freshId now form dbResult).logs = [⟨"ERROR", logFailedQuery e⟩]) ∧
    (dbResult = .ok () →
      (insert_subscriber freshId now form dbResult).result = .ok () ∧
      (insert_subscriber freshId now form dbResult).logs = []) := by
  cases dbResult with
  | ok u =>
      cases u
      exact ⟨rfl, fun e he => Except.noConfusion he, fun _ => ⟨rfl, rfl⟩⟩
  | error e0 =>
      refine ⟨rfl, ?_, fun h0 => Except.noConfusion h0⟩
      intro e he
      injection he with h
      subst h
      exact ⟨rfl, rfl⟩

/-- Witness for claim C6 at a concrete failing execution. -/
theorem insert_subscriber_spec_witness :
    ((Except.error "boom" : Except String Unit) = .error "boom") ∧
    ((insert_subscriber "id-1" 5 ⟨"a@b.c", "Ada"⟩ (.error "boom")).result = .error "boom" ∧
     (insert_subscriber "id-1" 5 ⟨"a@b.c", "Ada"⟩ (.error "boom")).logs =
       [⟨"ERROR", logFailedQuery "boom"⟩]) :=
  ⟨rfl, (insert_subscriber_spec "id-1" 5 ⟨"a@b.c", "Ada"⟩ (.error "boom")).2.1 "boom" rfl⟩

/-- Claim C7 (counterexample): with RUST_LOG absent, `main.rs` fails fast
(its `expect` on the variable) instead of substituting the hardcoded
fallback filter, whatever the directive parser would do. -/
theorem rust_log_missing_fails_fast :
    mainEnvFilter (fun s => some (EnvFilter.new s)) none = .error mainRustLogMissingMsg := rfl

/-- Claim C7 (amended): `main.rs` requires RUST_LOG and fails fast when it
is absent; the hardcoded fallback filter "infos" is substituted only when
RUST_LOG is present but unparsable; the unused telemetry helper
`get_subscriber` substitutes its caller-supplied default directive when the
variable is absent. -/
theorem log_filter_fallback (parse : String → Option EnvFilter) :
    mainEnvFilter parse none = .error mainRustLogMissingMsg ∧
    (∀ v, parse v = none → mainEnvFilter parse (some v) = .ok (EnvFilter.new "infos")) ∧
    (∀ v f, parse v = some f → mainEnvFilter parse (some v) = .ok f) ∧
    (∀ d, get_subscriber_filter parse d none = EnvFilter.new d) := by
  refine ⟨rfl, ?_, ?_, fun d => rfl⟩
  · intro v h; simp [mainEnvFilter, try_from_default_env, h]
  · intro v f h; simp [mainEnvFilter, try_from_default_env, h]

/-- Witness for the amended claim C7 with a parser that rejects the set
value "bogus". -/
theorem log_filter_fallback_witness :
    ((fun _ : String => (none : Option EnvFilter)) "bogus" = none) ∧
    mainEnvFilter (fun _ => none) (some "bogus") = .ok (EnvFilter.new "infos") :=
  ⟨rfl, (log_filter_fallback (fun _ => none)).2.1 "bogus" rfl⟩

end Zero2Prod
